import Mathlib

/-!
Shallow embedding of `bom-cpl-plugin.py`: a command-line tool that turns a
KiCad XML netlist into per-vendor BOM csv files and rewrites an existing
position-report csv into a vendor CPL file.

Python values that flow through part attributes are dynamically typed
(`None`, strings, integers); we model them with an explicit `PyVal` type.
Operations that can raise a Python exception (AttributeError, TypeError,
KeyError, IndexError, StopIteration) are modelled in `Except Unit`.
-/

deriving instance DecidableEq for Except

namespace BomCpl

/-- A dynamically typed Python value as stored in a `Part` attribute. -/
inductive PyVal where
  | none : PyVal
  | str : String → PyVal
  | int : Int → PyVal
deriving DecidableEq, Repr

/-- Python truthiness for the values that occur here: `None` is falsy, a
string is truthy iff non-empty, an int is truthy iff non-zero. -/
def PyVal.truthy : PyVal → Bool
  | .none => false
  | .str s => s ≠ ""
  | .int n => n ≠ 0

/-- `f.text` of an XML element: `None` or a string; lifted into `PyVal`. -/
def optToPy : Option String → PyVal
  | Option.none => PyVal.none
  | some s => PyVal.str s

/-- Python's `str.upper()`: upper-case every character (ASCII semantics). -/
def pyUpper (s : String) : String :=
  String.mk (s.data.map Char.toUpper)

/-- One `<field name="...">text</field>` element: its `name` attribute and
its optional text node (an empty element has no text, i.e. `Option.none`). -/
structure Field where
  name : String
  text : Option String
deriving DecidableEq, Repr

/-- One `<component ref="...">` element of the netlist: the required `ref`
attribute, the optional `value` and `footprint` children (each with an
optional text node), and the optional `<fields>` container. -/
structure Component where
  ref : String
  value : Option (Option String)
  footprint : Option (Option String)
  fields : Option (List Field)
deriving DecidableEq, Repr

/-! ## Supplier profile registry (`g_suppliers`, lines 34–120) -/

/-- `g_posfiles = ('all-pos', 'top-pos', 'bottom-pos')`. -/
def g_posfiles : List String := ["all-pos", "top-pos", "bottom-pos"]

/-- One entry of the `g_suppliers` dictionary.  The `cplheaders` key is only
present for JLCPCB, hence the `Option`. -/
structure Profile where
  fields : List (String × String)
  equal : List String
  sorted : List String
  grouped : Bool
  generatecpl : Bool
  cplheaders : Option (List (Nat × String))
deriving DecidableEq, Repr

def defaultProfile : Profile where
  fields := [("Quantity", "Quantity"), ("Manufacture Part Number", "PartNumber"),
             ("Manufacturer", "Manufacturer"), ("Description", "ref"),
             ("Supplier Part Number", "SupplierRef"), ("Package", "footprint")]
  equal := ["PartNumber", "SupplierRef"]
  sorted := ["Manufacturer", "PartNumber"]
  grouped := true
  generatecpl := false
  cplheaders := Option.none

def jlcpcbProfile : Profile where
  fields := [("Comment", "value"), ("Designator", "ref"),
             ("Footprint", "footprint"), ("LCSC Part #", "SupplierRef")]
  equal := ["ref"]
  sorted := ["SupplierRef"]
  grouped := false
  generatecpl := true
  cplheaders := some [(0, "Designator"), (3, "Mid X"), (4, "Mid Y"),
                      (5, "Rotation"), (6, "Layer")]

def lcscProfile : Profile where
  fields := [("Quantity", "Quantity"), ("Manufacture Part Number", "PartNumber"),
             ("Manufacturer", "Manufacturer"), ("Description", "ref"),
             ("LCSC Part Number", "SupplierRef"), ("Package", "footprint")]
  equal := ["PartNumber", "SupplierRef"]
  sorted := ["Manufacturer", "PartNumber"]
  grouped := true
  generatecpl := false
  cplheaders := Option.none

/-- The `g_suppliers` dictionary as a partial map from key to entry. -/
def g_suppliers (supplier : String) : Option Profile :=
  if supplier = "Default" then some defaultProfile
  else if supplier = "JLCPCB" then some jlcpcbProfile
  else if supplier = "LCSC" then some lcscProfile
  else Option.none

/-- `getEqual(supplier)`: the profile's `equal` tuple, Default as fallback. -/
def getEqual (supplier : String) : List String :=
  match g_suppliers supplier with
  | some p => p.equal
  | Option.none => defaultProfile.equal

/-- `getSorted(supplier)`: the profile's `sorted` tuple, Default fallback. -/
def getSorted (supplier : String) : List String :=
  match g_suppliers supplier with
  | some p => p.sorted
  | Option.none => defaultProfile.sorted

/-- `needGrouping(supplier)`: the profile's `grouped` flag, Default fallback. -/
def needGrouping (supplier : String) : Bool :=
  match g_suppliers supplier with
  | some p => p.grouped
  | Option.none => defaultProfile.grouped

/-- `getFields(supplier)`: the profile's ordered fields map, Default fallback. -/
def getFields (supplier : String) : List (String × String) :=
  match g_suppliers supplier with
  | some p => p.fields
  | Option.none => defaultProfile.fields

/-- `generateCpl(supplier)`: the profile's `generatecpl` flag, Default fallback. -/
def generateCpl (supplier : String) : Bool :=
  match g_suppliers supplier with
  | some p => p.generatecpl
  | Option.none => defaultProfile.generatecpl

/-- `getHeaders(supplier)`: for a registered supplier it indexes
`g_suppliers[supplier]['cplheaders']` unconditionally — a KeyError when the
entry has no `cplheaders` key (Default, LCSC); unregistered suppliers get the
empty fallback (the source returns the empty tuple `()`). -/
def getHeaders (supplier : String) : Except Unit (List (Nat × String)) :=
  match g_suppliers supplier with
  | some p =>
      match p.cplheaders with
      | some h => Except.ok h
      | Option.none => Except.error ()
  | Option.none => Except.ok []

/-- `getInput(path, post, ext='csv')` = `"%s-%s.%s" % (path, post, ext)`. -/
def getInput (path post ext : String) : String :=
  path ++ "-" ++ post ++ "." ++ ext

/-- `getInputs(path)`: the three candidate position-file paths, in the
order of `g_posfiles`. -/
def getInputs (path : String) : List String :=
  g_posfiles.map (fun post => getInput path post "csv")

/-! ## Part record model (`class Part`, lines 123–171) -/

/-- The splitting of a character list on a separator, the semantics of
Python's `str.split(sep)` for a one-character separator: it always returns
at least one (possibly empty) group. -/
def splitChar (sep : Char) : List Char → List (List Char)
  | [] => [[]]
  | c :: cs =>
      match splitChar sep cs with
      | [] => []
      | g :: gs => if c = sep then [] :: g :: gs else (c :: g) :: gs

/-- `s.split(':').pop()`: the last group of the split, i.e. the text after
the last colon (the whole text when there is no colon). -/
def pyLastColonSeg (s : String) : String :=
  String.mk ((splitChar ':' s.data).getLastD [])

/-- A `Part` object after `__init__` and any `setattr` calls.  Every
attribute holds a dynamically typed Python value. -/
structure Part where
  ref : PyVal
  value : PyVal
  footprint : PyVal
  Supplier : PyVal
  Manufacturer : PyVal
  PartNumber : PyVal
  SupplierRef : PyVal
  Quantity : PyVal
deriving DecidableEq, Repr

/-- `component.find('./fields/field[@name="Supplier"]')`: the first field
element whose `name` attribute is exactly the string `"Supplier"` (the
XPath match is case-sensitive). -/
def findSupplierField (c : Component) : Option Field :=
  match c.fields with
  | some fs => fs.find? (fun f => f.name = "Supplier")
  | Option.none => Option.none

/-- `Part.__init__(component)` (lines 124–144).  Raises (AttributeError on
`None`) when the footprint element has no text (`None.split`) or the
Supplier field element has no text (`None.upper`). -/
def Part.init (c : Component) : Except Unit Part := do
  let value : PyVal :=
    match c.value with
    | some t => optToPy t
    | Option.none => PyVal.str ""
  let footprint : PyVal ←
    match c.footprint with
    | some (some t) => Except.ok (PyVal.str (pyLastColonSeg t))
    | some Option.none => Except.error ()
    | Option.none => Except.ok (PyVal.str "")
  let supplier : PyVal ←
    match findSupplierField c with
    | some f =>
        match f.text with
        | some t => Except.ok (PyVal.str (pyUpper t))
        | Option.none => Except.error ()
    | Option.none => Except.ok PyVal.none
  Except.ok { ref := PyVal.str c.ref, value := value, footprint := footprint,
              Supplier := supplier, Manufacturer := PyVal.str "",
              PartNumber := PyVal.none, SupplierRef := PyVal.none,
              Quantity := PyVal.int 1 }

/-- `Part.isvalid`: `Supplier is not None and Supplier != ''`. -/
def Part.isvalid (p : Part) : Bool :=
  p.Supplier ≠ PyVal.none && p.Supplier ≠ PyVal.str ""

/-- The registry lookups are keyed by `part.Supplier`, a Python value: a
non-string value is never a key of `g_suppliers`, so the fallback applies. -/
def supplierKey : PyVal → Option String
  | PyVal.str s => some s
  | _ => Option.none

def getEqualV (v : PyVal) : List String :=
  match supplierKey v with
  | some s => getEqual s
  | Option.none => defaultProfile.equal

def getSortedV (v : PyVal) : List String :=
  match supplierKey v with
  | some s => getSorted s
  | Option.none => defaultProfile.sorted

def needGroupingV (v : PyVal) : Bool :=
  match supplierKey v with
  | some s => needGrouping s
  | Option.none => defaultProfile.grouped

def getFieldsV (v : PyVal) : List (String × String) :=
  match supplierKey v with
  | some s => getFields s
  | Option.none => defaultProfile.fields

/-- `getattr(p, a)` for the eight attributes a `Part` owns.  Every name
that reaches `getattr` in the program comes from a profile's `equal`,
`sorted` or `fields` table, all of whose entries are among these eight, so
the catch-all branch (Python would raise AttributeError) is unreachable. -/
def Part.attr (p : Part) (a : String) : PyVal :=
  if a = "ref" then p.ref
  else if a = "value" then p.value
  else if a = "footprint" then p.footprint
  else if a = "Supplier" then p.Supplier
  else if a = "Manufacturer" then p.Manufacturer
  else if a = "PartNumber" then p.PartNumber
  else if a = "SupplierRef" then p.SupplierRef
  else if a = "Quantity" then p.Quantity
  else PyVal.none

/-- `setattr(p, a, v)` for the same eight attribute names. -/
def Part.setAttr (p : Part) (a : String) (v : PyVal) : Part :=
  if a = "ref" then { p with ref := v }
  else if a = "value" then { p with value := v }
  else if a = "footprint" then { p with footprint := v }
  else if a = "Supplier" then { p with Supplier := v }
  else if a = "Manufacturer" then { p with Manufacturer := v }
  else if a = "PartNumber" then { p with PartNumber := v }
  else if a = "SupplierRef" then { p with SupplierRef := v }
  else if a = "Quantity" then { p with Quantity := v }
  else p

/-- `Part.__eq__` (lines 150–154).  When the suppliers differ it returns
`False`; otherwise the source evaluates
`(getattr(self, a) for a in attrs) == (getattr(other, a) for a in attrs)`:
two freshly created generator objects, which Python compares by object
identity — two distinct objects, hence always `False`. -/
def Part.pyEq (self other : Part) : Bool :=
  if self.Supplier ≠ other.Supplier then false
  else false

/-- `Part.__lt__` (lines 156–160).  When the suppliers differ the supplier
values are compared (both are strings for parts in the list); otherwise the
source evaluates `generator < generator`, which raises TypeError. -/
def Part.pyLt (self other : Part) : Except Unit Bool :=
  if self.Supplier ≠ other.Supplier then
    match self.Supplier, other.Supplier with
    | PyVal.str a, PyVal.str b => Except.ok (decide (a < b))
    | PyVal.int a, PyVal.int b => Except.ok (decide (a < b))
    | _, _ => Except.error ()
  else Except.error ()

/-- `Part.setCustomFields(fields, suppliers)` (lines 162–171): overwrite
each attribute named by the profile's fields map from the matching custom
field's text; accept the part iff every equality-key attribute is truthy,
and on acceptance add the supplier (once) to the discovered list.  Returns
the mutated part, the mutated supplier list and the boolean result. -/
def Part.setCustomFields (p : Part) (fields : List Field) (suppliers : List PyVal) :
    Part × List PyVal × Bool :=
  let q := fields.foldl
    (fun q f =>
      if (getFieldsV q.Supplier).map Prod.snd |>.contains f.name then
        q.setAttr f.name (optToPy f.text)
      else q) p
  if (getEqualV q.Supplier).all (fun a => (q.attr a).truthy) then
    if suppliers.contains q.Supplier then (q, suppliers, true)
    else (q, suppliers ++ [q.Supplier], true)
  else (q, suppliers, false)

/-! ## Netlist parser (`parseXml`, lines 174–202) -/

/-- `exist.Quantity += part.Quantity`: Python `+` on the stored values;
int/int adds, str/str concatenates, everything else raises TypeError. -/
def pyAdd : PyVal → PyVal → Except Unit PyVal
  | PyVal.int a, PyVal.int b => Except.ok (PyVal.int (a + b))
  | PyVal.str a, PyVal.str b => Except.ok (PyVal.str (a ++ b))
  | _, _ => Except.error ()

/-- The grouped branch (lines 192–197): find the first previously accepted
part equal (under `Part.__eq__`) to the new one and increment its Quantity,
or append the new part at the end. -/
def groupInsert (part : Part) : List Part → Except Unit (List Part)
  | [] => Except.ok [part]
  | p :: ps =>
      if p.pyEq part then do
        let q ← pyAdd p.Quantity part.Quantity
        Except.ok ({ p with Quantity := q } :: ps)
      else do
        Except.ok (p :: (← groupInsert part ps))

/-- The non-grouped branch (lines 198–200): `for i in range(part.Quantity):
parts.append(part)`.  `range` of a non-integer raises TypeError; a negative
integer yields an empty range. -/
def replicateQty (q : PyVal) : Except Unit Nat :=
  match q with
  | PyVal.int n => Except.ok n.toNat
  | _ => Except.error ()

/-- The three accumulators of `parseXml`. -/
structure ParseState where
  suppliers : List PyVal
  parts : List Part
  missings : List PyVal
deriving DecidableEq, Repr

/-- One iteration of the `parseXml` loop over component elements
(lines 182–200). -/
def parseStep (st : ParseState) (c : Component) : Except Unit ParseState := do
  let part ← Part.init c
  if ¬ part.isvalid then
    Except.ok { st with missings := st.missings ++ [part.ref] }
  else do
    let fields ←
      match c.fields with
      | some fs => Except.ok fs
      | Option.none => Except.error ()
    match part.setCustomFields fields st.suppliers with
    | (part, suppliers, ok) =>
      if ¬ ok then
        Except.ok { st with suppliers := suppliers,
                            missings := st.missings ++ [part.ref] }
      else do
        let parts ←
          if needGroupingV part.Supplier then groupInsert part st.parts
          else do
            let n ← replicateQty part.Quantity
            Except.ok (st.parts ++ List.replicate n part)
        Except.ok { suppliers := suppliers, parts := parts,
                    missings := st.missings }

/-- `parseXml` over an already-extracted component list: fold the loop body
over the components starting from three empty accumulators and return
`(suppliers, parts, missings)`. -/
def parseXml (components : List Component) :
    Except Unit (List PyVal × List Part × List PyVal) := do
  let st ← components.foldlM parseStep { suppliers := [], parts := [], missings := [] }
  Except.ok (st.suppliers, st.parts, st.missings)

/-! ## Sorting (`sorted(parts)`, line 256) -/

/-- One insertion of Python's comparison-based stable sort, driven by
`Part.__lt__`; any comparison that raises aborts the sort. -/
def pyInsertPart (x : Part) : List Part → Except Unit (List Part)
  | [] => Except.ok [x]
  | y :: ys => do
      if (← Part.pyLt x y) then Except.ok (x :: y :: ys)
      else Except.ok (y :: (← pyInsertPart x ys))

/-- `sorted(parts)` modelled as an insertion sort over the same `__lt__`
comparator the built-in sort consults; on a two-element list every
comparison-based sort performs exactly the one comparison this model does. -/
def pySorted (l : List Part) : Except Unit (List Part) :=
  l.foldlM (fun acc x => pyInsertPart x acc) []

/-! ## CPL rewriter (`rewriteCsv` lines 226–238, `copyCsv` lines 241–250) -/

/-- The `for input in getInputs(path): if os.path.isfile(input): ... break`
loop: the first candidate path the filesystem predicate accepts. -/
def firstExisting (isfile : String → Bool) : List String → Option String
  | [] => Option.none
  | f :: fs => if isfile f then some f else firstExisting isfile fs

/-- `rewriteCsv(suppliers, path)` restricted to its observable choice: for
each supplier whose profile generates a CPL, the input file chosen (if any);
`Option.none` models the `rewrited[supplier] = False` report. -/
def rewriteCsv (isfile : String → Bool) (suppliers : List String) (path : String) :
    List (String × Option String) :=
  suppliers.foldl
    (fun acc supplier =>
      if generateCpl supplier then
        acc ++ [(supplier, firstExisting isfile (getInputs path))]
      else acc) []

/-- The `for i, value in headers.items(): header[i] = value` loop of
`copyCsv`: `header[i] = value` raises IndexError when `i` is out of range. -/
def setHeader (header : List String) : List (Nat × String) → Except Unit (List String)
  | [] => Except.ok header
  | (i, v) :: rest =>
      if i < header.length then setHeader (header.set i v) rest
      else Except.error ()

/-- `copyCsv(input, output, headers)` on the parsed csv rows of the input
file: `next(reader)` raises StopIteration on an empty file; otherwise the
header row is rewritten in place and every remaining row copied verbatim. -/
def copyCsv (rows : List (List String)) (headers : List (Nat × String)) :
    Except Unit (List (List String)) :=
  match rows with
  | [] => Except.error ()
  | header :: rest => do
      let h ← setHeader header headers
      Except.ok (h :: rest)

/-! ## Concrete demonstration inputs -/

/-- The JLCPCB `cplheaders` override mapping, as a list of (index, text)
pairs in the dictionary's insertion order. -/
def jlcCplHeaders : List (Nat × String) :=
  [(0, "Designator"), (3, "Mid X"), (4, "Mid Y"), (5, "Rotation"), (6, "Layer")]

/-- A component bound to LCSC with PartNumber "PN1" and SupplierRef "C123". -/
def cC1a : Component where
  ref := "R1"
  value := some (some "10k")
  footprint := some (some "Resistor_SMD:R_0603")
  fields := some [{ name := "Supplier", text := some "LCSC" },
                  { name := "PartNumber", text := some "PN1" },
                  { name := "SupplierRef", text := some "C123" }]

/-- A second LCSC component, identical to `cC1a` except for its `ref`. -/
def cC1b : Component where
  ref := "R2"
  value := some (some "10k")
  footprint := some (some "Resistor_SMD:R_0603")
  fields := some [{ name := "Supplier", text := some "LCSC" },
                  { name := "PartNumber", text := some "PN1" },
                  { name := "SupplierRef", text := some "C123" }]

/-- An accepted LCSC part as produced by the parser from `cC1a`. -/
def pC2a : Part where
  ref := PyVal.str "R1"
  value := PyVal.str "10k"
  footprint := PyVal.str "R_0603"
  Supplier := PyVal.str "LCSC"
  Manufacturer := PyVal.str ""
  PartNumber := PyVal.str "PN1"
  SupplierRef := PyVal.str "C123"
  Quantity := PyVal.int 1

/-- A second accepted LCSC part with different sort-key values. -/
def pC2b : Part where
  ref := PyVal.str "R2"
  value := PyVal.str "1k"
  footprint := PyVal.str "R_0603"
  Supplier := PyVal.str "LCSC"
  Manufacturer := PyVal.str "Acme"
  PartNumber := PyVal.str "PN0"
  SupplierRef := PyVal.str "C9"
  Quantity := PyVal.int 1

/-- A component whose supplier field is declared with name "SUPPLIER"
(upper case), not "Supplier". -/
def cC4bad : Component where
  ref := "R9"
  value := Option.none
  footprint := Option.none
  fields := some [{ name := "SUPPLIER", text := some "lcsc" }]

/-- A component whose supplier field is declared "Supplier" with
lower-case text. -/
def cC4good : Component where
  ref := "R8"
  value := Option.none
  footprint := some (some "lib:FP")
  fields := some [{ name := "Supplier", text := some "lcsc" }]

/-- A component whose Supplier field element is present but empty (an empty
XML element has no text node, i.e. its text is `None`). -/
def cC5none : Component where
  ref := "R3"
  value := Option.none
  footprint := Option.none
  fields := some [{ name := "Supplier", text := Option.none }]

/-- A component with no Supplier field at all. -/
def cC5absent : Component where
  ref := "R4"
  value := Option.none
  footprint := Option.none
  fields := some [{ name := "Other", text := some "x" }]

/-- A component whose Supplier field carries the empty string as text. -/
def cC5empty : Component where
  ref := "R5"
  value := Option.none
  footprint := Option.none
  fields := some [{ name := "Supplier", text := some "" }]

/-- The seven-column position-file header row of the spec's example. -/
def c8Header : List String :=
  ["Designator", "Layer", "Value", "Mid X", "Mid Y", "Rotation", "Layer"]

/-- One data row of the position file. -/
def c8Row : List String := ["a", "b", "c", "d", "e", "f", "g"]

/-- A six-column header row, one cell short of the JLCPCB overrides. -/
def c9Header : List String := ["A", "B", "C", "D", "E", "F"]

/-- A component whose footprint text has no colon. -/
def cC10a : Component where
  ref := "C1"
  value := Option.none
  footprint := some (some "R_0603")
  fields := Option.none

/-- A component whose footprint text is a colon-separated library path. -/
def cC10b : Component where
  ref := "C2"
  value := Option.none
  footprint := some (some "lib:FP1")
  fields := Option.none

/-! ## Theorems -/

/-- C3 counterexample: LCSC is a registered vendor whose profile generates
no CPL, yet `getHeaders "LCSC"` raises a KeyError (the `'cplheaders'` key is
absent from its registry entry) instead of returning an empty mapping, so the
registry lookups are not all total and error-free. -/
theorem C3_counterexample :
    generateCpl "LCSC" = false ∧ getHeaders "LCSC" = Except.error () := by
  constructor <;> rfl

/-- C3 (amended): every registry lookup other than `getHeaders` is total;
`getHeaders` returns the JLCPCB override mapping for JLCPCB and the empty
fallback for unregistered vendors, but raises KeyError for the registered
vendors without a `cplheaders` entry (Default and LCSC); for every vendor
whose profile generates a CPL — the only vendors the program ever queries —
the lookup succeeds. -/
theorem C3_amended :
    getHeaders "JLCPCB" = Except.ok [(0, "Designator"), (3, "Mid X"), (4, "Mid Y"),
      (5, "Rotation"), (6, "Layer")] ∧
    (∀ s, s ∉ ["Default", "JLCPCB", "LCSC"] → getHeaders s = Except.ok []) ∧
    getHeaders "Default" = Except.error () ∧
    getHeaders "LCSC" = Except.error () ∧
    (∀ s, generateCpl s = true →
      getHeaders s = Except.ok [(0, "Designator"), (3, "Mid X"), (4, "Mid Y"),
        (5, "Rotation"), (6, "Layer")]) := by
  refine ⟨rfl, ?_, rfl, rfl, ?_⟩
  · intro s hs
    simp only [List.mem_cons, List.not_mem_nil, or_false, not_or] at hs
    obtain ⟨h1, h2, h3⟩ := hs
    simp [getHeaders, g_suppliers, h1, h2, h3]
  · intro s hs
    unfold generateCpl g_suppliers at hs
    unfold getHeaders g_suppliers
    split_ifs at hs ⊢ <;> simp_all [defaultProfile, jlcpcbProfile, lcscProfile]

/-- C3 witness: the amended theorem applied at the unregistered vendor name
"PCBWAY" and at the CPL-generating vendor "JLCPCB". -/
theorem C3_witness :
    getHeaders "PCBWAY" = Except.ok [] ∧
    getHeaders "JLCPCB" = Except.ok [(0, "Designator"), (3, "Mid X"), (4, "Mid Y"),
      (5, "Rotation"), (6, "Layer")] :=
  ⟨C3_amended.2.1 "PCBWAY" (by decide), C3_amended.2.2.2.2 "JLCPCB" (by decide)⟩

/-- C6: every vendor name outside {Default, JLCPCB, LCSC} falls back to the
Default profile for `fields`, `equal`, `sorted` and `grouped`, and
`generateCpl` returns false for it. -/
theorem C6_default_fallback (s : String) (hs : s ∉ ["Default", "JLCPCB", "LCSC"]) :
    getFields s = defaultProfile.fields ∧
    getEqual s = defaultProfile.equal ∧
    getSorted s = defaultProfile.sorted ∧
    needGrouping s = defaultProfile.grouped ∧
    generateCpl s = false := by
  simp only [List.mem_cons, List.not_mem_nil, or_false, not_or] at hs
  obtain ⟨h1, h2, h3⟩ := hs
  refine ⟨?_, ?_, ?_, ?_, ?_⟩ <;>
    simp [getFields, getEqual, getSorted, needGrouping, generateCpl,
          g_suppliers, h1, h2, h3, defaultProfile]

/-- C6 witness: the fallback theorem applied at the vendor name "PCBWAY". -/
theorem C6_witness :
    getFields "PCBWAY" = defaultProfile.fields ∧
    getEqual "PCBWAY" = defaultProfile.equal ∧
    getSorted "PCBWAY" = defaultProfile.sorted ∧
    needGrouping "PCBWAY" = defaultProfile.grouped ∧
    generateCpl "PCBWAY" = false :=
  C6_default_fallback "PCBWAY" (by decide)

/-- The `rewriteCsv` fold, generalized over its accumulator: each supplier
whose profile generates a CPL contributes the first existing candidate. -/
lemma rewriteCsv_foldl_eq (isfile : String → Bool) (path : String) :
    ∀ (suppliers : List String) (acc : List (String × Option String)),
      suppliers.foldl
        (fun acc supplier =>
          if generateCpl supplier then
            acc ++ [(supplier, firstExisting isfile (getInputs path))]
          else acc) acc
      = acc ++ (suppliers.filter generateCpl).map
          (fun s => (s, firstExisting isfile (getInputs path))) := by
  intro suppliers
  induction suppliers with
  | nil => intro acc; simp
  | cons s rest ih =>
      intro acc
      by_cases h : generateCpl s = true
      · simp [List.foldl_cons, h, ih, List.filter_cons]
      · simp only [Bool.not_eq_true] at h
        simp [List.foldl_cons, h, ih, List.filter_cons]

/-- C7: for every supplier whose profile generates a CPL, the rewriter
probes exactly the three candidate paths `<prefix>-all-pos.csv`,
`<prefix>-top-pos.csv`, `<prefix>-bottom-pos.csv` in that fixed order and
rewrites from the first one that exists; in particular, when the `all-pos`
candidate exists it is used regardless of the others. -/
theorem C7_cpl_priority :
    (∀ (isfile : String → Bool) (suppliers : List String) (path : String),
      rewriteCsv isfile suppliers path
        = (suppliers.filter generateCpl).map
            (fun s => (s, firstExisting isfile (getInputs path)))) ∧
    (∀ path, getInputs path
        = [getInput path "all-pos" "csv", getInput path "top-pos" "csv",
           getInput path "bottom-pos" "csv"]) ∧
    (∀ (isfile : String → Bool) (path : String),
      isfile (getInput path "all-pos" "csv") = true →
        firstExisting isfile (getInputs path) = some (getInput path "all-pos" "csv")) ∧
    (∀ (isfile : String → Bool) (path : String),
      isfile (getInput path "all-pos" "csv") = false →
      isfile (getInput path "top-pos" "csv") = true →
        firstExisting isfile (getInputs path) = some (getInput path "top-pos" "csv")) ∧
    (∀ (isfile : String → Bool) (path : String),
      isfile (getInput path "all-pos" "csv") = false →
      isfile (getInput path "top-pos" "csv") = false →
        firstExisting isfile (getInputs path)
          = if isfile (getInput path "bottom-pos" "csv") then
              some (getInput path "bottom-pos" "csv")
            else Option.none) := by
  refine ⟨?_, ?_, ?_, ?_, ?_⟩
  · intro isfile suppliers path
    simpa using rewriteCsv_foldl_eq isfile path suppliers []
  · intro path; rfl
  · intro isfile path h
    simp [getInputs, g_posfiles, firstExisting, h]
  · intro isfile path h1 h2
    simp [getInputs, g_posfiles, firstExisting, h1, h2]
  · intro isfile path h1 h2
    simp [getInputs, g_posfiles, firstExisting, h1, h2]

/-- C7 witness: with prefix "board" and a filesystem where both the
`all-pos` and `top-pos` candidates exist, the CPL-generating vendor JLCPCB
is rewritten from `board-all-pos.csv`. -/
theorem C7_witness :
    rewriteCsv (fun f => f = "board-all-pos.csv" || f = "board-top-pos.csv")
        ["JLCPCB"] "board"
      = [("JLCPCB", some "board-all-pos.csv")] := by
  have h1 := C7_cpl_priority.1
    (fun f => f = "board-all-pos.csv" || f = "board-top-pos.csv") ["JLCPCB"] "board"
  have h2 := C7_cpl_priority.2.2.1
    (fun f => f = "board-all-pos.csv" || f = "board-top-pos.csv") "board" (by decide)
  rw [h1]
  simp only [h2]
  decide

/-- A successful `setHeader` preserves the header's length. -/
lemma setHeader_length (hdrs : List (Nat × String)) :
    ∀ header out, setHeader header hdrs = Except.ok out → out.length = header.length := by
  induction hdrs with
  | nil =>
      intro header out h
      simp only [setHeader] at h
      cases h; rfl
  | cons iv rest ih =>
      obtain ⟨i, v⟩ := iv
      intro header out h
      simp only [setHeader] at h
      by_cases hi : i < header.length
      · rw [if_pos hi] at h
        simpa [List.length_set] using ih (header.set i v) out h
      · rw [if_neg hi] at h
        exact absurd h (by simp)

/-- A successful `setHeader` leaves every cell whose index is not an
override key unchanged. -/
lemma setHeader_not_mem (hdrs : List (Nat × String)) :
    ∀ header out j, j ∉ hdrs.map Prod.fst → setHeader header hdrs = Except.ok out →
      out[j]? = header[j]? := by
  induction hdrs with
  | nil =>
      intro header out j _ h
      simp only [setHeader] at h
      cases h; rfl
  | cons iv rest ih =>
      obtain ⟨i, v⟩ := iv
      intro header out j hj h
      simp only [List.map_cons, List.mem_cons, not_or] at hj
      simp only [setHeader] at h
      by_cases hi : i < header.length
      · rw [if_pos hi] at h
        rw [ih (header.set i v) out j hj.2 h]
        exact List.getElem?_set_ne (Ne.symm hj.1)
      · rw [if_neg hi] at h
        exact absurd h (by simp)

/-- When the override keys are distinct, a successful `setHeader` puts each
override's text at its index. -/
lemma setHeader_mem (hdrs : List (Nat × String)) :
    ∀ header out, (hdrs.map Prod.fst).Nodup →
      setHeader header hdrs = Except.ok out →
      ∀ iv ∈ hdrs, out[iv.1]? = some iv.2 := by
  induction hdrs with
  | nil => intro header out _ _ iv hiv; exact absurd hiv (by simp)
  | cons iv0 rest ih =>
      obtain ⟨i, v⟩ := iv0
      intro header out hnd h iv hiv
      simp only [List.map_cons, List.nodup_cons] at hnd
      simp only [setHeader] at h
      by_cases hi : i < header.length
      · rw [if_pos hi] at h
        rcases List.mem_cons.mp hiv with heq | hmem
        · subst heq
          rw [setHeader_not_mem rest (header.set i v) out i hnd.1 h]
          exact List.getElem?_set_eq_of_lt v (by simpa [List.length_set] using hi)
        · exact ih (header.set i v) out hnd.2 h iv hmem
      · rw [if_neg hi] at h
        exact absurd h (by simp)

/-- `setHeader` succeeds whenever every override index is in range. -/
lemma setHeader_ok_of_lt (hdrs : List (Nat × String)) :
    ∀ header, (∀ iv ∈ hdrs, iv.1 < header.length) →
      ∃ out, setHeader header hdrs = Except.ok out := by
  induction hdrs with
  | nil => intro header _; exact ⟨header, rfl⟩
  | cons iv0 rest ih =>
      obtain ⟨i, v⟩ := iv0
      intro header hlt
      have hi : i < header.length := hlt (i, v) (by simp)
      obtain ⟨out, hout⟩ := ih (header.set i v) (by
        intro iv hiv
        have := hlt iv (List.mem_cons_of_mem _ hiv)
        simpa [List.length_set] using this)
      exact ⟨out, by simp only [setHeader]; rw [if_pos hi]; exact hout⟩

/-- A successful `copyCsv` run decomposes into a rewritten header consed
onto the untouched data rows. -/
lemma copyCsv_ok_elim (header : List String) (rows out : List (List String))
    (hdrs : List (Nat × String))
    (hok : copyCsv (header :: rows) hdrs = Except.ok out) :
    ∃ h, setHeader header hdrs = Except.ok h ∧ out = h :: rows := by
  simp only [copyCsv] at hok
  cases hsh : setHeader header hdrs with
  | error e =>
      rw [hsh] at hok
      simp [Bind.bind, Except.bind] at hok
  | ok h =>
      rw [hsh] at hok
      simp only [Bind.bind, Except.bind] at hok
      cases hok
      exact ⟨h, rfl, rfl⟩

/-- C8: the CPL rewrite keeps the row count, copies every data row
verbatim, keeps the header length, writes each override's text at its
index, and passes every other header cell through unchanged. -/
theorem C8_copy_frame (header : List String) (rows : List (List String))
    (hdrs : List (Nat × String)) (out : List (List String))
    (hnd : (hdrs.map Prod.fst).Nodup)
    (hok : copyCsv (header :: rows) hdrs = Except.ok out) :
    out.length = (header :: rows).length ∧
    out.drop 1 = rows ∧
    (out.headD []).length = header.length ∧
    (∀ iv ∈ hdrs, (out.headD [])[iv.1]? = some iv.2) ∧
    (∀ j, j ∉ hdrs.map Prod.fst → (out.headD [])[j]? = header[j]?) := by
  obtain ⟨h, hsh, rfl⟩ := copyCsv_ok_elim header rows out hdrs hok
  refine ⟨by simp, by simp, ?_, ?_, ?_⟩
  · simpa using setHeader_length hdrs header h hsh
  · intro iv hiv
    simpa using setHeader_mem hdrs header h hnd hsh iv hiv
  · intro j hj
    simpa using setHeader_not_mem hdrs header h j hj hsh

/-- C8 witness: the frame theorem applied to the spec's seven-column JLCPCB
example, whose overrides happen to reproduce the original header. -/
theorem C8_copy_frame_witness :
    ([c8Header, c8Row] : List (List String)).drop 1 = [c8Row] ∧
    ([c8Header, c8Row].headD []).length = c8Header.length ∧
    ([c8Header, c8Row].headD [])[3]? = some "Mid X" ∧
    ([c8Header, c8Row].headD [])[1]? = c8Header[1]? := by
  have h := C8_copy_frame c8Header [c8Row] jlcCplHeaders [c8Header, c8Row]
    (by decide) rfl
  exact ⟨h.2.1, h.2.2.1, h.2.2.2.1 (3, "Mid X") (by decide),
         h.2.2.2.2 1 (by decide)⟩

/-- C9: with the JLCPCB overrides (largest index 6) the header rewrite
succeeds exactly when the source header row has at least 7 cells; a shorter
header makes `copyCsv` raise an out-of-range IndexError, so no rewritten
output is produced. -/
theorem C9_short_header (header : List String) (rows : List (List String))
    (hs : List (Nat × String)) (hh : getHeaders "JLCPCB" = Except.ok hs) :
    (header.length < 7 → copyCsv (header :: rows) hs = Except.error ()) ∧
    (7 ≤ header.length → ∃ out, copyCsv (header :: rows) hs = Except.ok out) := by
  have hs_eq : hs = jlcCplHeaders := by
    simp only [getHeaders, g_suppliers, jlcpcbProfile] at hh
    simp only [if_neg (by decide : ¬ ("JLCPCB" = "Default")), if_pos rfl] at hh
    exact (Except.ok.inj hh).symm
  subst hs_eq
  constructor
  · intro hlt
    simp only [copyCsv, jlcCplHeaders, setHeader, List.length_set]
    split_ifs <;> first | rfl | omega
  · intro hge
    obtain ⟨h, hh⟩ := setHeader_ok_of_lt jlcCplHeaders header (by
      intro iv hiv
      simp only [jlcCplHeaders, List.mem_cons, List.not_mem_nil, or_false] at hiv
      rcases hiv with rfl | rfl | rfl | rfl | rfl <;> simp <;> omega)
    exact ⟨h :: rows, by simp only [copyCsv]; rw [hh]; rfl⟩

/-- C9 witness: the precondition theorem applied to a six-column header,
where the rewrite fails with the out-of-range error. -/
theorem C9_short_header_witness :
    copyCsv (c9Header :: [c8Row]) jlcCplHeaders = Except.error () :=
  (C9_short_header c9Header [c8Row] jlcCplHeaders rfl).1 (by decide)

/-- C1 evaluation: LCSC is a grouped profile, and the two accepted LCSC
components `cC1a`/`cC1b` agree on both equality-key attributes, yet the
parser emits two rows of Quantity 1 instead of one row of Quantity 2:
`Part.__eq__` compares two freshly created generator objects, which is
always false, so the merge branch is unreachable. -/
theorem C1_grouping_eval :
    needGrouping "LCSC" = true ∧
    Part.pyEq pC2a pC2a = false ∧
    (parseXml [cC1a, cC1b]).map
        (fun r => r.2.1.map (fun p => (p.Supplier, p.PartNumber, p.SupplierRef, p.Quantity)))
      = Except.ok
          [(PyVal.str "LCSC", PyVal.str "PN1", PyVal.str "C123", PyVal.int 1),
           (PyVal.str "LCSC", PyVal.str "PN1", PyVal.str "C123", PyVal.int 1)] :=
  ⟨rfl, rfl, by decide⟩

/-- C2 evaluation: two accepted parts that share the supplier "LCSC" make
`Part.__lt__` raise a TypeError (it compares two generator objects), so
sorting any accepted-part collection containing them aborts instead of
ordering by the supplier's sort keys. -/
theorem C2_sort_eval :
    pC2a.Supplier = pC2b.Supplier ∧
    Part.pyLt pC2a pC2b = Except.error () ∧
    pySorted [pC2a, pC2b] = Except.error () :=
  ⟨rfl, rfl, rfl⟩

/-- C4 counterexample: a field declared `name="SUPPLIER"` is not recognized
— the XPath lookup matches the declared name exactly, so the part's
Supplier stays `None` instead of becoming "LCSC". -/
theorem C4_counterexample :
    (Part.init cC4bad).map Part.Supplier = Except.ok PyVal.none ∧
    (Part.init cC4bad).map Part.Supplier ≠ Except.ok (PyVal.str "LCSC") := by
  refine ⟨rfl, fun h => ?_⟩
  have h2 : Except.ok (ε := Unit) PyVal.none = Except.ok (PyVal.str "LCSC") := by
    rw [← h]; rfl
  exact PyVal.noConfusion (Except.ok.inj h2)

/-- C4 (amended): the Supplier custom field is found by an exact,
case-sensitive match on the field's declared name `"Supplier"`, and when
found its text is stored upper-cased as the part's Supplier. -/
theorem C4_exact_name_match :
    (∀ (c : Component) (f : Field) (t : String),
      c.footprint ≠ some Option.none →
      findSupplierField c = some f → f.text = some t →
      (Part.init c).map Part.Supplier = Except.ok (PyVal.str (pyUpper t))) ∧
    (∀ (c : Component) (f : Field), findSupplierField c = some f →
      f.name = "Supplier") := by
  constructor
  · intro c f t hfp hfind ht
    rcases hfp2 : c.footprint with _ | ofp
    · simp [Part.init, hfind, ht, hfp2, Bind.bind, Except.bind, Except.map]
    · rcases ofp with _ | u
      · exact absurd hfp2 hfp
      · simp [Part.init, hfind, ht, hfp2, Bind.bind, Except.bind, Except.map]
  · intro c f hfind
    unfold findSupplierField at hfind
    rcases hcf : c.fields with _ | fs
    · rw [hcf] at hfind; cases hfind
    · rw [hcf] at hfind
      simpa using List.find?_some hfind

/-- C4 witness: the amended theorem applied to a component whose Supplier
field is declared exactly "Supplier" with lower-case text "lcsc". -/
theorem C4_exact_name_match_witness :
    (Part.init cC4good).map Part.Supplier
      = Except.ok (PyVal.str (pyUpper "lcsc")) :=
  C4_exact_name_match.1 cC4good { name := "Supplier", text := some "lcsc" } "lcsc"
    (by decide) rfl rfl

/-- C5 counterexample: a component whose Supplier field element is present
but empty (no text node) makes parsing raise an AttributeError
(`None.upper()`), aborting the whole run, rather than being routed to the
missing list. -/
theorem C5_counterexample :
    findSupplierField cC5none = some { name := "Supplier", text := Option.none } ∧
    parseXml [cC5none] = Except.error () :=
  ⟨rfl, rfl⟩

/-- C5 (amended): a component whose Supplier field is absent, or present
with empty-string text, does not fail the parse: the part is marked
invalid, its reference designator is appended to the missing list, the
accepted parts and discovered suppliers are untouched, and the step
returns normally so the run continues.  (A Supplier field with no text
node, by contrast, aborts the run — see the counterexample.) -/
theorem C5_missing_supplier (st : ParseState) (c : Component)
    (hfp : c.footprint ≠ some Option.none)
    (hsup : findSupplierField c = Option.none ∨
            ∃ f, findSupplierField c = some f ∧ f.text = some "") :
    parseStep st c
      = Except.ok { st with missings := st.missings ++ [PyVal.str c.ref] } := by
  rcases hsup with hnone | ⟨f, hfind, htext⟩
  · rcases hfp2 : c.footprint with _ | ofp
    · simp [parseStep, Part.init, hnone, hfp2, Part.isvalid,
            Bind.bind, Except.bind]
    · rcases ofp with _ | u
      · exact absurd hfp2 hfp
      · simp [parseStep, Part.init, hnone, hfp2, Part.isvalid,
              Bind.bind, Except.bind]
  · have htu : pyUpper "" = "" := rfl
    rcases hfp2 : c.footprint with _ | ofp
    · simp [parseStep, Part.init, hfind, htext, hfp2, Part.isvalid,
            Bind.bind, Except.bind, pyUpper, htu]
    · rcases ofp with _ | u
      · exact absurd hfp2 hfp
      · simp [parseStep, Part.init, hfind, htext, hfp2, Part.isvalid,
              Bind.bind, Except.bind, pyUpper, htu]

/-- C5 witness: the amended theorem applied to a component with no Supplier
field and to one whose Supplier field text is the empty string. -/
theorem C5_missing_supplier_witness :
    parseStep { suppliers := [], parts := [], missings := [] } cC5absent
      = Except.ok { suppliers := [], parts := [], missings := [PyVal.str "R4"] } ∧
    parseStep { suppliers := [], parts := [], missings := [] } cC5empty
      = Except.ok { suppliers := [], parts := [], missings := [PyVal.str "R5"] } :=
  ⟨C5_missing_supplier { suppliers := [], parts := [], missings := [] } cC5absent
      (by decide) (Or.inl rfl),
   C5_missing_supplier { suppliers := [], parts := [], missings := [] } cC5empty
      (by decide) (Or.inr ⟨{ name := "Supplier", text := some "" }, rfl, rfl⟩)⟩

/-- The split of a character list always has at least one group. -/
lemma splitChar_ne_nil (sep : Char) : ∀ l, splitChar sep l ≠ [] := by
  intro l
  induction l with
  | nil => simp [splitChar]
  | cons c cs ih =>
      simp only [splitChar]
      cases h : splitChar sep cs with
      | nil => exact absurd h ih
      | cons g gs => split_ifs <;> simp

/-- Splitting a list that does not contain the separator yields the one
group equal to the whole list. -/
lemma splitChar_not_mem (sep : Char) : ∀ l, sep ∉ l → splitChar sep l = [l] := by
  intro l
  induction l with
  | nil => intro _; rfl
  | cons c cs ih =>
      intro h
      simp only [List.mem_cons, not_or] at h
      simp only [splitChar, ih h.2]
      rw [if_neg (fun hc => h.1 hc.symm)]

/-- Splitting a list that contains the separator yields at least two groups. -/
lemma splitChar_two_le (sep : Char) : ∀ l, sep ∈ l → 2 ≤ (splitChar sep l).length := by
  intro l
  induction l with
  | nil => intro h; exact absurd h (List.not_mem_nil sep)
  | cons c cs ih =>
      intro h
      cases hs : splitChar sep cs with
      | nil => exact absurd hs (splitChar_ne_nil sep cs)
      | cons g gs =>
          simp only [splitChar, hs]
          rcases List.mem_cons.mp h with rfl | hmem
          · rw [if_pos rfl]; simp
          · have h2 := ih hmem
            rw [hs] at h2
            split_ifs <;> simp_all

/-- The last group of splitting `a ++ sep :: b`, with `sep` not in `b`,
is `b`: the text after the last separator. -/
lemma splitChar_append_last (sep : Char) (b : List Char) (hb : sep ∉ b) :
    ∀ a, (splitChar sep (a ++ sep :: b)).getLastD [] = b := by
  intro a
  induction a with
  | nil =>
      simp only [List.nil_append, splitChar, splitChar_not_mem sep b hb, if_pos rfl]
      simp [List.getLastD_cons]
  | cons c a ih =>
      cases h : splitChar sep (a ++ sep :: b) with
      | nil => exact absurd h (splitChar_ne_nil sep _)
      | cons g gs =>
          have hlen : 2 ≤ (splitChar sep (a ++ sep :: b)).length :=
            splitChar_two_le sep _ (by simp)
          rw [h] at hlen ih
          cases gs with
          | nil => simp at hlen
          | cons g2 gs2 =>
              simp only [List.getLastD_cons] at ih
              simp only [List.cons_append, splitChar, List.append_eq, h]
              split_ifs <;> simpa only [List.getLastD_cons] using ih

/-- When the text has no colon, `split(':').pop()` returns it unchanged. -/
lemma pyLastColonSeg_no_colon (t : String) (h : ':' ∉ t.data) :
    pyLastColonSeg t = t := by
  obtain ⟨l⟩ := t
  simp only [pyLastColonSeg] at *
  rw [splitChar_not_mem ':' l h]
  rfl

/-- When the text is `a ++ ':' ++ b` with no colon in `b`,
`split(':').pop()` returns `b`: the text after the last colon. -/
lemma pyLastColonSeg_after_colon (a b : List Char) (hb : ':' ∉ b) :
    pyLastColonSeg (String.mk (a ++ ':' :: b)) = String.mk b := by
  simp only [pyLastColonSeg]
  rw [splitChar_append_last ':' b hb a]

/-- A part built from a component with footprint text `t` (and a supplier
field that does not abort `__init__`) carries `pyLastColonSeg t` as its
footprint attribute. -/
lemma Part.init_footprint (c : Component) (t : String)
    (hfp : c.footprint = some (some t))
    (hsup : ∀ f, findSupplierField c = some f → f.text ≠ Option.none) :
    (Part.init c).map Part.footprint = Except.ok (PyVal.str (pyLastColonSeg t)) := by
  rcases hfind : findSupplierField c with _ | f
  · simp [Part.init, hfp, hfind, Bind.bind, Except.bind, Except.map]
  · rcases htext : f.text with _ | u
    · exact absurd htext (hsup f hfind)
    · simp [Part.init, hfp, hfind, htext, Bind.bind, Except.bind, Except.map]

/-- C10: splitting the footprint text on `':'` and taking the last segment
is the identity when the text contains no colon, and returns the text after
the last colon otherwise; the Part's footprint attribute is exactly that
segment. -/
theorem C10_footprint_split :
    (∀ (c : Component) (t : String),
      c.footprint = some (some t) →
      (∀ f, findSupplierField c = some f → f.text ≠ Option.none) →
      t ≠ "" → ':' ∉ t.data →
      (Part.init c).map Part.footprint = Except.ok (PyVal.str t)) ∧
    (∀ (c : Component) (a b : List Char),
      c.footprint = some (some (String.mk (a ++ ':' :: b))) →
      (∀ f, findSupplierField c = some f → f.text ≠ Option.none) →
      ':' ∉ b →
      (Part.init c).map Part.footprint = Except.ok (PyVal.str (String.mk b))) := by
  constructor
  · intro c t hfp hsup _ hcolon
    rw [Part.init_footprint c t hfp hsup, pyLastColonSeg_no_colon t hcolon]
  · intro c a b hfp hsup hb
    rw [Part.init_footprint c (String.mk (a ++ ':' :: b)) hfp hsup,
        pyLastColonSeg_after_colon a b hb]

/-- C10 witness: the theorem applied to a footprint with no colon
("R_0603", unchanged) and to the library path "lib:FP1" (reduced to
"FP1"). -/
theorem C10_footprint_split_witness :
    (Part.init cC10a).map Part.footprint = Except.ok (PyVal.str "R_0603") ∧
    (Part.init cC10b).map Part.footprint = Except.ok (PyVal.str (String.mk ['F', 'P', '1'])) := by
  constructor
  · exact C10_footprint_split.1 cC10a "R_0603" rfl
      (by intro f h; simp [findSupplierField, cC10a] at h) (by decide) (by decide)
  · exact C10_footprint_split.2 cC10b ['l', 'i', 'b'] ['F', 'P', '1'] (by decide)
      (by intro f h; simp [findSupplierField, cC10b] at h) (by decide)

end BomCpl
